import Mathlib

/-!
Verification of the BooksWithMusic development server (`dev-server.py`).

The server is a Python `http.server` subclass with one logging endpoint.
We shallowly embed the request handlers as pure functions:

  * `do_POST`  embeds `LoggingHTTPRequestHandler.do_POST` (lines 13-43);
  * `do_OPTIONS` embeds `LoggingHTTPRequestHandler.do_OPTIONS` (lines 45-51);
  * `mainPort` embeds the CLI port selection (line 61).

State and effects are made explicit: the contents of `debug.log` and the
text written to standard output are threaded as strings; the HTTP response
the handler sends is a `HttpResponse`; `none` as the response of `do_POST`
models a Python exception that escapes the handler method uncaught
(nothing in the method sends a response in that case).

Collaborator behaviour from the Python standard library is embedded at the
granularity the handler observes it:

  * `self.rfile.read(content_length)` (line 17) sits outside the `try`;
    whether it raises is the request's `readFails` flag, and when it does
    the exception escapes the handler.  When the read succeeds,
    `json.loads(post_data.decode('utf-8'))` either fails (a
    `UnicodeDecodeError` or `json.JSONDecodeError`) or yields a JSON
    value; the request carries this outcome as `parsedBody : Option Json`.
  * `int(...)` on the raw `Content-Length` header value is `pyIntHeader`:
    a missing header makes `self.headers['Content-Length']` return `None`
    and `int(None)` raise `TypeError`; a value `int` cannot read raises
    `ValueError`.  `pyParseInt` follows Python's base-10 grammar —
    stripped whitespace, optional sign, digits with single-underscore
    grouping — and agrees with `int()` on ASCII strings; non-ASCII
    digit or whitespace characters are not modelled, so theorems about
    `int()` failing carry an all-ASCII guard.
  * The f-string `f"[{timestamp}] {x}: {y}\n"` applies Python `str()` to
    the extracted values; `pyStr` embeds `str()` on JSON-derived values.
    Inside `repr` of nested containers, Python's escaping of quotes and
    backslashes within string reprs is not modelled (no handler behaviour
    in the claims depends on the rendering of nested containers).
  * Exception message texts (`str(e)` in the diagnostic print) are
    abstracted by `pyExnMsg`.
  * `send_response` also emits stdlib `Server` and `Date` headers; we
    model the headers the handler code itself sends via `send_header`.
  * A failing `open`/`write` on `debug.log` is modelled by the `writeFails`
    flag; the file is left unchanged in that case.  JSON numbers are
    modelled as integers (no claim involves numeric fields).
-/

/-- A JSON value, as produced by `json.loads`.  Numbers are modelled as
integers; objects are key/value lists in which, as with `json.loads`,
a later duplicate key overrides an earlier one (see `dictGet`). -/
inductive Json where
  | null : Json
  | bool : Bool → Json
  | num : Int → Json
  | str : String → Json
  | arr : List Json → Json
  | obj : List (String × Json) → Json

/-- Python exceptions that the handler can raise or catch. -/
inductive PyExn where
  | typeError : PyExn
  | valueError : PyExn
  | jsonDecodeError : PyExn
  | attributeError : PyExn
  | osError : PyExn
deriving DecidableEq

/-- The text `str(e)` of an exception, abstracted: the handler only
interpolates it into the local diagnostic print, whose exact wording no
claim depends on. -/
def pyExnMsg : PyExn → String
  | .typeError => "TypeError"
  | .valueError => "ValueError"
  | .jsonDecodeError => "JSONDecodeError"
  | .attributeError => "AttributeError"
  | .osError => "OSError"

mutual
/-- Python `repr` of a JSON-derived value (quote escaping inside nested
string reprs not modelled). -/
def pyRepr : Json → String
  | .null => "None"
  | .bool true => "True"
  | .bool false => "False"
  | .num n => toString n
  | .str s => "\x27" ++ s ++ "\x27"
  | .arr xs => "[" ++ pyReprList xs ++ "]"
  | .obj kvs => "\x7b" ++ pyReprObj kvs ++ "\x7d"

/-- Comma-separated reprs of a list's elements. -/
def pyReprList : List Json → String
  | [] => ""
  | [x] => pyRepr x
  | x :: y :: xs => pyRepr x ++ ", " ++ pyReprList (y :: xs)

/-- Comma-separated `key: value` reprs of a dict's items. -/
def pyReprObj : List (String × Json) → String
  | [] => ""
  | [(k, v)] => "\x27" ++ k ++ "\x27: " ++ pyRepr v
  | (k, v) :: p :: kvs =>
      "\x27" ++ k ++ "\x27: " ++ pyRepr v ++ ", " ++ pyReprObj (p :: kvs)
end

/-- Python `str()` applied to a JSON-derived value: a `str` yields itself,
everything else coincides with `repr`. -/
def pyStr : Json → String
  | .str s => s
  | j => pyRepr j

/-- Python `dict.get` lookup on a parsed JSON object: the binding of the
last duplicate occurrence of the key wins, matching the dict `json.loads`
builds. -/
def dictGet (kvs : List (String × Json)) (k : String) : Option Json :=
  kvs.reverse.lookup k

/-- Digit-string accumulation for `pyParseInt`, with Python's grouping
rule: a single underscore may stand between two digits, never doubled,
leading or trailing. -/
def digitsCore : List Char → Nat → Option Nat
  | [], acc => some acc
  | '_' :: c :: cs, acc =>
      if c.isDigit then digitsCore cs (acc * 10 + (c.toNat - 48)) else none
  | c :: cs, acc =>
      if c.isDigit then digitsCore cs (acc * 10 + (c.toNat - 48)) else none

/-- Value of a digit run (with underscore grouping) that must start with a
digit and be non-empty. -/
def digitsVal : List Char → Option Nat
  | [] => none
  | c :: cs => if c.isDigit then digitsCore cs (c.toNat - 48) else none

/-- The ASCII characters Python's `int` strips as whitespace: 0x09-0x0d,
0x1c-0x1f, and the space. -/
def pyIsSpace (c : Char) : Bool :=
  (9 ≤ c.toNat && c.toNat ≤ 13) || (28 ≤ c.toNat && c.toNat ≤ 31) || c = ' '

/-- Strip leading and trailing whitespace from a character list, as
Python's `int` does before reading the sign and digits. -/
def stripWs (cs : List Char) : List Char :=
  ((cs.dropWhile pyIsSpace).reverse.dropWhile pyIsSpace).reverse

/-- Python `int(s)` on a string: surrounding whitespace stripped, optional
sign, then a non-empty digit run with underscore grouping; anything else
raises `ValueError` (`none` here).  Exact on ASCII strings; non-ASCII
digit and whitespace characters are not modelled. -/
def pyParseInt (s : String) : Option Int :=
  match stripWs s.data with
  | '+' :: rest => (digitsVal rest).map Int.ofNat
  | '-' :: rest => (digitsVal rest).map (fun n => -(n : Int))
  | cs => (digitsVal cs).map Int.ofNat

/-- `int(self.headers['Content-Length'])` (line 16): a missing header makes
the subscript yield `None` and `int(None)` raise `TypeError`; a value
`int` cannot read raises `ValueError`. -/
def pyIntHeader : Option String → Except PyExn Int
  | none => .error .typeError
  | some s =>
      match pyParseInt s with
      | some n => .ok n
      | none => .error .valueError

/-- An HTTP response as the handler sends it: status from `send_response`,
headers from the handler's own `send_header` calls in order, body bytes
written to `wfile`. -/
structure HttpResponse where
  status : Nat
  headers : List (String × String)
  body : String
deriving DecidableEq

/-- An inbound POST request as `do_POST` observes it: the URL path, the
raw `Content-Length` header value (`none` when absent), whether the body
read of line 17 raises, and — when it does not — the outcome of
`json.loads` on the UTF-8 decoded body (`none` when decoding or parsing
fails). -/
structure Request where
  path : String
  contentLength : Option String
  readFails : Bool
  parsedBody : Option Json

/-- Everything `do_POST` leaves behind: the response sent (`none` when an
exception escaped the method uncaught), the resulting contents of
`debug.log`, and the text the call printed to standard output. -/
structure PostResult where
  response : Option HttpResponse
  debugLog : String
  stdout : String
deriving DecidableEq

/-- Line 22: build the log line `f"[{timestamp}] {level}: {message}\n"`,
with `log_data.get('level', 'LOG')` and `log_data.get('message', '')`.
Calling `.get` on a non-dict value raises `AttributeError`. -/
def extractLine (ts : String) : Json → Except PyExn String
  | .obj kvs =>
      let lv := (dictGet kvs "level").getD (.str "LOG")
      let ms := (dictGet kvs "message").getD (.str "")
      .ok ("[" ++ ts ++ "] " ++ pyStr lv ++ ": " ++ pyStr ms ++ "\n")
  | _ => .error .attributeError

/-- The body of the `try` block (lines 20-26): parse, format, append to
`debug.log`; any step may raise. -/
def ingest (ts : String) (body : Option Json) (writeFails : Bool) :
    Except PyExn String :=
  match body with
  | none => .error .jsonDecodeError
  | some j =>
      match extractLine ts j with
      | .error e => .error e
      | .ok line => if writeFails then .error .osError else .ok line

/-- The success response of lines 32-36. -/
def okResponse : HttpResponse :=
  { status := 200
    headers := [("Content-type", "application/json"),
                ("Access-Control-Allow-Origin", "*")]
    body := "\x7b\"status\":\"ok\"\x7d" }

/-- The failure response of lines 39-40. -/
def errResponse : HttpResponse :=
  { status := 500, headers := [], body := "" }

/-- The unknown-route response of lines 42-43. -/
def notFoundResponse : HttpResponse :=
  { status := 404, headers := [], body := "" }

/-- `LoggingHTTPRequestHandler.do_POST` (lines 13-43).  `fileContents` is
the current contents of `debug.log`, `ts` the value of
`datetime.now().isoformat()` at the moment of processing, and `writeFails`
whether opening or writing `debug.log` raises.  The Content-Length parse
and the body read (lines 16-17) sit outside the `try`, so their
exceptions escape the method: `response := none`. -/
def do_POST (req : Request) (fileContents ts : String) (writeFails : Bool) :
    PostResult :=
  if req.path = "/api/log" then
    match pyIntHeader req.contentLength with
    | .error _ =>
        { response := none, debugLog := fileContents, stdout := "" }
    | .ok _ =>
        if req.readFails then
          { response := none, debugLog := fileContents, stdout := "" }
        else
          match ingest ts req.parsedBody writeFails with
          | .ok line =>
              { response := some okResponse
                debugLog := fileContents ++ line
                stdout := line }
          | .error e =>
              { response := some errResponse
                debugLog := fileContents
                stdout := "Error logging: " ++ pyExnMsg e ++ "\n" }
  else
    { response := some notFoundResponse
      debugLog := fileContents
      stdout := "" }

/-- `LoggingHTTPRequestHandler.do_OPTIONS` (lines 45-51): the requested
path is never consulted. -/
def do_OPTIONS (_path : String) : HttpResponse :=
  { status := 200
    headers := [("Access-Control-Allow-Origin", "*"),
                ("Access-Control-Allow-Methods", "POST, OPTIONS"),
                ("Access-Control-Allow-Headers", "Content-Type")]
    body := "" }

/-- Line 61: `port = int(sys.argv[1]) if len(sys.argv) > 1 else 8000`.
`argv` includes the program name at index 0.  A non-numeric argument makes
`int` raise `ValueError` (uncaught, crashing the process before `run`). -/
def mainPort (argv : List String) : Except PyExn Int :=
  match argv with
  | _ :: a :: _ =>
      match pyParseInt a with
      | some n => .ok n
      | none => .error .valueError
  | _ => .ok 8000

/-! ## Helper lemmas shared by the claim theorems -/

/-- For a `/api/log` request with a parsed JSON object whose `level` and
`message` keys hold the strings `L` and `M`, and a numeric Content-Length
and healthy read and file system, `do_POST` appends the formatted line,
echoes it to standard output, and sends the 200 acknowledgment. -/
theorem post_log_success_strings (kvs : List (String × Json))
    (L M fileC ts cl : String) (n : Int)
    (hcl : pyParseInt cl = some n)
    (hL : dictGet kvs "level" = some (.str L))
    (hM : dictGet kvs "message" = some (.str M)) :
    do_POST ⟨"/api/log", some cl, false, some (.obj kvs)⟩ fileC ts false =
      { response := some okResponse
        debugLog := fileC ++ ("[" ++ ts ++ "] " ++ L ++ ": " ++ M ++ "\n")
        stdout := "[" ++ ts ++ "] " ++ L ++ ": " ++ M ++ "\n" } := by
  simp [do_POST, pyIntHeader, hcl, ingest, extractLine, hL, hM, pyStr]

/-! ## Claim theorems -/

/-- C1: a POST to `/api/log` whose body is a valid JSON object with string
values `L` under `"level"` and `M` under `"message"` is answered with
status 200, headers `Content-type: application/json` and
`Access-Control-Allow-Origin: *`, exact body `{"status":"ok"}`, and
`debug.log` gains exactly the one new line `[<ts>] <L>: <M>\n`. -/
theorem c1_post_log_success (kvs : List (String × Json))
    (L M fileC ts cl : String) (n : Int)
    (hcl : pyParseInt cl = some n)
    (hL : dictGet kvs "level" = some (.str L))
    (hM : dictGet kvs "message" = some (.str M)) :
    do_POST ⟨"/api/log", some cl, false, some (.obj kvs)⟩ fileC ts false =
      { response := some
          { status := 200
            headers := [("Content-type", "application/json"),
                        ("Access-Control-Allow-Origin", "*")]
            body := "\x7b\"status\":\"ok\"\x7d" }
        debugLog := fileC ++ ("[" ++ ts ++ "] " ++ L ++ ": " ++ M ++ "\n")
        stdout := "[" ++ ts ++ "] " ++ L ++ ": " ++ M ++ "\n" } := by
  rw [post_log_success_strings kvs L M fileC ts cl n hcl hL hM]
  rfl

/-- C1 witness: the concrete scenario `{"level":"ERROR","message":"boom"}`. -/
theorem c1_witness :
    do_POST ⟨"/api/log", some "43", false,
        some (.obj [("level", Json.str "ERROR"), ("message", Json.str "boom")])⟩
        "" "2024-01-01T12:00:00" false =
      { response := some
          { status := 200
            headers := [("Content-type", "application/json"),
                        ("Access-Control-Allow-Origin", "*")]
            body := "\x7b\"status\":\"ok\"\x7d" }
        debugLog := "" ++ ("[" ++ "2024-01-01T12:00:00" ++ "] " ++ "ERROR"
                            ++ ": " ++ "boom" ++ "\n")
        stdout := "[" ++ "2024-01-01T12:00:00" ++ "] " ++ "ERROR"
                    ++ ": " ++ "boom" ++ "\n" } :=
  c1_post_log_success [("level", Json.str "ERROR"), ("message", Json.str "boom")]
    "ERROR" "boom" "" "2024-01-01T12:00:00" "43" 43 rfl rfl rfl

/-- C3 counterexample: a body whose `level` key is present with value
`null` is logged with level `None` (Python's rendering of `None`), not
with the default `LOG`: `dict.get` only falls back to the default when the
key is absent. -/
theorem c3_counterexample :
    (do_POST ⟨"/api/log", some "16", false, some (.obj [("level", Json.null)])⟩
        "" "2024-01-01T00:00:00" false).debugLog
      = "[2024-01-01T00:00:00] None: \n" ∧
    (do_POST ⟨"/api/log", some "16", false, some (.obj [("level", Json.null)])⟩
        "" "2024-01-01T00:00:00" false).debugLog
      ≠ "[2024-01-01T00:00:00] LOG: \n" := by
  refine ⟨rfl, ?_⟩
  intro h
  rw [show (do_POST ⟨"/api/log", some "16", false,
        some (.obj [("level", Json.null)])⟩
        "" "2024-01-01T00:00:00" false).debugLog
      = "[2024-01-01T00:00:00] None: \n" from rfl] at h
  exact absurd h (by decide)

/-- C3 amended: the defaults apply exactly when the respective key is
absent, independently per key — a missing `level` logs with level `LOG`
whatever the message field holds, and a missing `message` logs with the
empty message whatever the level field holds — while a key present with
JSON `null` is rendered as `None` in its position of the log line. -/
theorem c3_amended_per_key :
    (∀ (kvs : List (String × Json)) (fileC ts cl : String) (n : Int),
        pyParseInt cl = some n →
        dictGet kvs "level" = none →
        ∃ ms, (do_POST ⟨"/api/log", some cl, false, some (.obj kvs)⟩ fileC ts
            false).debugLog
          = fileC ++ ("[" ++ ts ++ "] " ++ "LOG" ++ ": " ++ ms ++ "\n")) ∧
    (∀ (kvs : List (String × Json)) (fileC ts cl : String) (n : Int),
        pyParseInt cl = some n →
        dictGet kvs "message" = none →
        ∃ lv, (do_POST ⟨"/api/log", some cl, false, some (.obj kvs)⟩ fileC ts
            false).debugLog
          = fileC ++ ("[" ++ ts ++ "] " ++ lv ++ ": " ++ "" ++ "\n")) ∧
    (∀ (kvs : List (String × Json)) (fileC ts cl : String) (n : Int),
        pyParseInt cl = some n →
        dictGet kvs "level" = some Json.null →
        ∃ ms, (do_POST ⟨"/api/log", some cl, false, some (.obj kvs)⟩ fileC ts
            false).debugLog
          = fileC ++ ("[" ++ ts ++ "] " ++ "None" ++ ": " ++ ms ++ "\n")) ∧
    (∀ (kvs : List (String × Json)) (fileC ts cl : String) (n : Int),
        pyParseInt cl = some n →
        dictGet kvs "message" = some Json.null →
        ∃ lv, (do_POST ⟨"/api/log", some cl, false, some (.obj kvs)⟩ fileC ts
            false).debugLog
          = fileC ++ ("[" ++ ts ++ "] " ++ lv ++ ": " ++ "None" ++ "\n")) := by
  refine ⟨?_, ?_, ?_, ?_⟩
  · intro kvs fileC ts cl n hcl hL
    refine ⟨pyStr ((dictGet kvs "message").getD (.str "")), ?_⟩
    simp [do_POST, pyIntHeader, hcl, ingest, extractLine, hL, pyStr]
  · intro kvs fileC ts cl n hcl hM
    refine ⟨pyStr ((dictGet kvs "level").getD (.str "LOG")), ?_⟩
    simp [do_POST, pyIntHeader, hcl, ingest, extractLine, hM, pyStr]
  · intro kvs fileC ts cl n hcl hL
    refine ⟨pyStr ((dictGet kvs "message").getD (.str "")), ?_⟩
    simp [do_POST, pyIntHeader, hcl, ingest, extractLine, hL, pyStr, pyRepr]
  · intro kvs fileC ts cl n hcl hM
    refine ⟨pyStr ((dictGet kvs "level").getD (.str "LOG")), ?_⟩
    simp [do_POST, pyIntHeader, hcl, ingest, extractLine, hM, pyStr, pyRepr]

/-- C3 witness: all four per-key cases at concrete bodies — `level`
omitted, `message` omitted, `level` null, `message` null. -/
theorem c3_amended_witness :
    (∃ ms, (do_POST ⟨"/api/log", some "2", false,
        some (.obj [("message", Json.str "hi")])⟩ "" "t" false).debugLog
      = "" ++ ("[" ++ "t" ++ "] " ++ "LOG" ++ ": " ++ ms ++ "\n")) ∧
    (∃ lv, (do_POST ⟨"/api/log", some "2", false,
        some (.obj [("level", Json.str "W")])⟩ "" "t" false).debugLog
      = "" ++ ("[" ++ "t" ++ "] " ++ lv ++ ": " ++ "" ++ "\n")) ∧
    (∃ ms, (do_POST ⟨"/api/log", some "2", false,
        some (.obj [("level", Json.null), ("message", Json.str "m")])⟩
        "" "t" false).debugLog
      = "" ++ ("[" ++ "t" ++ "] " ++ "None" ++ ": " ++ ms ++ "\n")) ∧
    (∃ lv, (do_POST ⟨"/api/log", some "2", false,
        some (.obj [("message", Json.null)])⟩ "" "t" false).debugLog
      = "" ++ ("[" ++ "t" ++ "] " ++ lv ++ ": " ++ "None" ++ "\n")) :=
  ⟨c3_amended_per_key.1 [("message", Json.str "hi")] "" "t" "2" 2 rfl rfl,
   c3_amended_per_key.2.1 [("level", Json.str "W")] "" "t" "2" 2 rfl rfl,
   c3_amended_per_key.2.2.1 [("level", Json.null), ("message", Json.str "m")]
     "" "t" "2" 2 rfl rfl,
   c3_amended_per_key.2.2.2 [("message", Json.null)] "" "t" "2" 2 rfl rfl⟩

/-- C4: a POST to `/api/log` whose body fails UTF-8 decoding or JSON
parsing is answered 500 with empty body and `debug.log` is unchanged —
the write happens only after a successful parse, so this holds whether or
not the file system would accept a write. -/
theorem c4_malformed_body (fileC ts cl : String) (n : Int) (wf : Bool)
    (hcl : pyParseInt cl = some n) :
    do_POST ⟨"/api/log", some cl, false, none⟩ fileC ts wf =
      { response := some { status := 500, headers := [], body := "" }
        debugLog := fileC
        stdout := "Error logging: " ++ pyExnMsg .jsonDecodeError ++ "\n" } := by
  simp [do_POST, pyIntHeader, hcl, ingest, errResponse]

/-- C4 witness: a malformed body at a concrete request. -/
theorem c4_witness :
    do_POST ⟨"/api/log", some "7", false, none⟩ "pre\n" "t" true =
      { response := some { status := 500, headers := [], body := "" }
        debugLog := "pre\n"
        stdout := "Error logging: " ++ pyExnMsg .jsonDecodeError ++ "\n" } :=
  c4_malformed_body "pre\n" "t" "7" 7 true rfl

/-- C5: every OPTIONS request, whatever its path, is answered 200 with
empty body and exactly the three CORS headers the handler sends, in order:
`Access-Control-Allow-Origin: *`, `Access-Control-Allow-Methods: POST,
OPTIONS`, `Access-Control-Allow-Headers: Content-Type`. -/
theorem c5_options_cors (path : String) :
    do_OPTIONS path =
      { status := 200
        headers := [("Access-Control-Allow-Origin", "*"),
                    ("Access-Control-Allow-Methods", "POST, OPTIONS"),
                    ("Access-Control-Allow-Headers", "Content-Type")]
        body := "" } := rfl

/-- C6: a POST to any path other than `/api/log` is answered 404 with
empty body, and `debug.log` is left unchanged. -/
theorem c6_post_other_path (req : Request) (fileC ts : String) (wf : Bool)
    (hpath : req.path ≠ "/api/log") :
    do_POST req fileC ts wf =
      { response := some { status := 404, headers := [], body := "" }
        debugLog := fileC
        stdout := "" } := by
  simp [do_POST, hpath, notFoundResponse]

/-- C6 witness: `POST /other-path`. -/
theorem c6_witness :
    do_POST ⟨"/other-path", some "2", false, some (.obj [])⟩ "pre\n" "t" false =
      { response := some { status := 404, headers := [], body := "" }
        debugLog := "pre\n"
        stdout := "" } :=
  c6_post_other_path ⟨"/other-path", some "2", false, some (.obj [])⟩
    "pre\n" "t" false (by decide)

/-- C7: every successful ingestion appends exactly its one formatted line
after the existing file contents, byte for byte; handling the same request
twice (successfully, at timestamps `ts1` then `ts2`) appends two lines,
and the two lines share the same level and message text, differing only
in the timestamp — never deduplicated. -/
theorem c7_append_only (req : Request) (fileC ts1 ts2 line1 line2 : String)
    (n : Int)
    (hpath : req.path = "/api/log")
    (hcl : pyIntHeader req.contentLength = .ok n)
    (hrf : req.readFails = false)
    (h1 : ingest ts1 req.parsedBody false = .ok line1)
    (h2 : ingest ts2 req.parsedBody false = .ok line2) :
    (do_POST req fileC ts1 false).debugLog = fileC ++ line1 ∧
    (do_POST req (do_POST req fileC ts1 false).debugLog ts2 false).debugLog
      = fileC ++ line1 ++ line2 ∧
    ∃ lv ms, line1 = "[" ++ ts1 ++ "] " ++ lv ++ ": " ++ ms ++ "\n" ∧
             line2 = "[" ++ ts2 ++ "] " ++ lv ++ ": " ++ ms ++ "\n" := by
  refine ⟨?_, ?_, ?_⟩
  · simp [do_POST, hpath, hcl, hrf, h1]
  · simp [do_POST, hpath, hcl, hrf, h1, h2]
  · cases hb : req.parsedBody with
    | none => rw [hb] at h1; simp [ingest] at h1
    | some j =>
      rw [hb] at h1 h2
      cases j with
      | null => simp [ingest, extractLine] at h1
      | bool b => simp [ingest, extractLine] at h1
      | num m => simp [ingest, extractLine] at h1
      | str s => simp [ingest, extractLine] at h1
      | arr xs => simp [ingest, extractLine] at h1
      | obj kvs =>
        simp [ingest, extractLine] at h1 h2
        exact ⟨_, _, h1.symm, h2.symm⟩

/-- C7 witness: the same `{"level":"L1","message":"m"}` request handled
twice at timestamps `t1` and `t2`. -/
theorem c7_append_witness :
    (do_POST ⟨"/api/log", some "2", false,
        some (.obj [("level", Json.str "L1"), ("message", Json.str "m")])⟩
        "" "t1" false).debugLog = "" ++ "[t1] L1: m\n" ∧
    (do_POST ⟨"/api/log", some "2", false,
        some (.obj [("level", Json.str "L1"), ("message", Json.str "m")])⟩
        (do_POST ⟨"/api/log", some "2", false,
          some (.obj [("level", Json.str "L1"), ("message", Json.str "m")])⟩
          "" "t1" false).debugLog
        "t2" false).debugLog = "" ++ "[t1] L1: m\n" ++ "[t2] L1: m\n" ∧
    ∃ lv ms, "[t1] L1: m\n" = "[" ++ "t1" ++ "] " ++ lv ++ ": " ++ ms ++ "\n" ∧
             "[t2] L1: m\n" = "[" ++ "t2" ++ "] " ++ lv ++ ": " ++ ms ++ "\n" :=
  c7_append_only
    ⟨"/api/log", some "2", false,
      some (.obj [("level", Json.str "L1"), ("message", Json.str "m")])⟩
    "" "t1" "t2" "[t1] L1: m\n" "[t2] L1: m\n" 2 rfl rfl rfl rfl rfl

/-- C8: on every successful ingestion, the text printed to standard output
is exactly the formatted line, and it is byte for byte the text appended
to `debug.log` (the line already ends in the one newline). -/
theorem c8_stdout_echo (req : Request) (fileC ts line : String) (n : Int)
    (hpath : req.path = "/api/log")
    (hcl : pyIntHeader req.contentLength = .ok n)
    (hrf : req.readFails = false)
    (hing : ingest ts req.parsedBody false = .ok line) :
    (do_POST req fileC ts false).stdout = line ∧
    (do_POST req fileC ts false).debugLog
      = fileC ++ (do_POST req fileC ts false).stdout := by
  simp [do_POST, hpath, hcl, hrf, hing]

/-- C8 witness: the concrete `{"level":"ERROR","message":"boom"}` request. -/
theorem c8_witness :
    (do_POST ⟨"/api/log", some "43", false,
        some (.obj [("level", Json.str "ERROR"), ("message", Json.str "boom")])⟩
        "" "T" false).stdout = "[T] ERROR: boom\n" ∧
    (do_POST ⟨"/api/log", some "43", false,
        some (.obj [("level", Json.str "ERROR"), ("message", Json.str "boom")])⟩
        "" "T" false).debugLog
      = "" ++ (do_POST ⟨"/api/log", some "43", false,
          some (.obj [("level", Json.str "ERROR"), ("message", Json.str "boom")])⟩
          "" "T" false).stdout :=
  c8_stdout_echo
    ⟨"/api/log", some "43", false,
      some (.obj [("level", Json.str "ERROR"), ("message", Json.str "boom")])⟩
    "" "T" "[T] ERROR: boom\n" 43 rfl rfl rfl rfl

/-- C9: a body that parses to a non-object JSON value (array, string,
number, boolean or null) makes the `.get` attribute access raise inside
the `try`: the response is 500 with empty body and `debug.log` is
unchanged, the extraction failing before any write. -/
theorem c9_non_object (j : Json) (fileC ts cl : String) (n : Int) (wf : Bool)
    (hcl : pyParseInt cl = some n)
    (hobj : ∀ kvs, j ≠ Json.obj kvs) :
    do_POST ⟨"/api/log", some cl, false, some j⟩ fileC ts wf =
      { response := some { status := 500, headers := [], body := "" }
        debugLog := fileC
        stdout := "Error logging: " ++ pyExnMsg .attributeError ++ "\n" } := by
  have hx : extractLine ts j = .error .attributeError := by
    cases j <;> first | rfl | exact absurd rfl (hobj _)
  simp [do_POST, pyIntHeader, hcl, ingest, hx, errResponse]

/-- C9 witness: a top-level JSON array. -/
theorem c9_witness :
    do_POST ⟨"/api/log", some "2", false, some (Json.arr [])⟩ "pre\n" "t" false =
      { response := some { status := 500, headers := [], body := "" }
        debugLog := "pre\n"
        stdout := "Error logging: " ++ pyExnMsg .attributeError ++ "\n" } :=
  c9_non_object (Json.arr []) "pre\n" "t" "2" 2 false rfl
    (fun _ h => Json.noConfusion h)

/-- C10: the CLI takes one optional positional argument: with no argument
beyond the program name the port is 8000, and with an argument that parses
as an integer that integer is the port. -/
theorem c10_cli_port (prog a : String) (n : Int) :
    mainPort [prog] = .ok 8000 ∧
    (pyParseInt a = some n → mainPort [prog, a] = .ok n) := by
  refine ⟨rfl, fun h => ?_⟩
  simp [mainPort, h]

/-- C10 witness: no argument gives port 8000; argument `9090` gives 9090. -/
theorem c10_witness :
    mainPort ["dev-server.py"] = .ok 8000 ∧
    mainPort ["dev-server.py", "9090"] = .ok 9090 :=
  ⟨(c10_cli_port "dev-server.py" "9090" 9090).1,
   (c10_cli_port "dev-server.py" "9090" 9090).2 rfl⟩
